import Mathlib

set_option maxRecDepth 8000

/-!
Verification development for `science_numpy.py`, a single annotated tutorial
script demonstrating numpy usage.

The development has two layers:

1. A statement-level embedding of the script: every value-computing or
   effectful statement of the file is recorded as a `Stmt` descriptor
   (source line, syntactic kind, how its value is computed, the usage
   category it demonstrates, the files it creates, whether it is a
   top-level statement, and whether it is wrapped in an exception
   handler).  The list `scriptStmts` is a line-by-line transcription of
   the source file; `topStmts` restricts it to module-level statements.
   Small executable semantics (`execTrace`, `runExc`) interpret this
   straight-line program.

2. Functional embeddings of the concrete computations the script performs
   with numpy: `numbers_array` (arange + reshape), the list-comprehension
   versus `np.where` comparison, and a buffer/view heap model for the
   slice-is-a-view versus boolean-indexing-copies demonstrations.
-/

/-- Syntactic kind of a Python statement.  The kinds `conditional`, `loop`,
`tryStmt` and `threadSpawn` are included so that their absence from the
script is a provable fact rather than one built into the type. -/
inductive StmtKind where
  | importStmt
  | funcDef
  | assign
  | augAssign
  | exprStmt
  | printStmt
  | returnStmt
  | conditional
  | loop
  | tryStmt
  | threadSpawn
deriving DecidableEq, Repr

/-- How the value of a statement is computed: by a call into the numpy
library (including ndarray methods and overloaded array operators), by a
single Python builtin call (such as a bare `print`, `set` or `sorted`),
by local pure-Python logic (string building, list comprehensions, calls to
locally defined helper functions, arithmetic on Python scalars), or by no
computation at all (imports, plain literals, `def` headers). -/
inductive CompKind where
  | libraryCall
  | builtinCall
  | localLogic
  | noComputation
deriving DecidableEq, Repr

/-- Usage category a statement demonstrates, following the spec's list:
array creation, indexing, slicing, linear algebra, aggregation, sorting,
set operations, and file I/O (`diskOps`). -/
inductive OpCat where
  | creation
  | indexing
  | slicing
  | linalg
  | aggregation
  | sorting
  | setOps
  | diskOps
deriving DecidableEq, Repr

/-- Descriptor of one statement of `science_numpy.py`: source line, kind,
computation kind, demonstrated category (if any), files created on disk,
whether the statement is at module top level, and whether it is enclosed
in a try/except handler. -/
structure Stmt where
  line : Nat
  kind : StmtKind
  comp : CompKind
  category : Option OpCat
  creates : List String
  top : Bool
  handled : Bool
deriving DecidableEq, Repr

/-- Chunk of the script transcription (see `scriptStmts`). -/
def scriptStmtsA : List Stmt := [
  ⟨40, .importStmt, .noComputation, none, [], true, false⟩,
  ⟨43, .importStmt, .noComputation, none, [], true, false⟩,
  ⟨46, .printStmt, .builtinCall, none, [], true, false⟩,
  ⟨48, .funcDef, .noComputation, none, [], true, false⟩,
  ⟨50, .assign, .localLogic, none, [], false, false⟩,
  ⟨51, .printStmt, .localLogic, none, [], false, false⟩,
  ⟨53, .exprStmt, .localLogic, none, [], true, false⟩,
  ⟨60, .printStmt, .builtinCall, none, [], true, false⟩,
  ⟨66, .assign, .libraryCall, some .creation, [], true, false⟩,
  ⟨67, .printStmt, .builtinCall, none, [], true, false⟩,
  ⟨70, .printStmt, .builtinCall, none, [], true, false⟩,
  ⟨71, .printStmt, .builtinCall, none, [], true, false⟩,
  ⟨72, .printStmt, .builtinCall, none, [], true, false⟩,
  ⟨77, .assign, .noComputation, none, [], true, false⟩,
  ⟨78, .assign, .libraryCall, some .creation, [], true, false⟩,
  ⟨79, .printStmt, .builtinCall, none, [], true, false⟩,
  ⟨80, .printStmt, .builtinCall, none, [], true, false⟩,
  ⟨82, .assign, .noComputation, none, [], true, false⟩,
  ⟨83, .assign, .libraryCall, some .creation, [], true, false⟩,
  ⟨84, .printStmt, .builtinCall, none, [], true, false⟩,
  ⟨85, .printStmt, .builtinCall, none, [], true, false⟩,
  ⟨86, .printStmt, .builtinCall, none, [], true, false⟩,
  ⟨87, .printStmt, .builtinCall, none, [], true, false⟩,
  ⟨90, .assign, .libraryCall, some .creation, [], true, false⟩,
  ⟨91, .assign, .libraryCall, some .creation, [], true, false⟩,
  ⟨92, .printStmt, .builtinCall, none, [], true, false⟩,
  ⟨93, .printStmt, .builtinCall, none, [], true, false⟩,
  ⟨96, .assign, .libraryCall, some .creation, [], true, false⟩,
  ⟨97, .assign, .libraryCall, some .creation, [], true, false⟩,
  ⟨98, .assign, .libraryCall, some .creation, [], true, false⟩,
  ⟨99, .assign, .libraryCall, some .creation, [], true, false⟩,
  ⟨102, .assign, .libraryCall, some .creation, [], true, false⟩,
  ⟨103, .assign, .libraryCall, some .creation, [], true, false⟩,
  ⟨111, .assign, .libraryCall, some .creation, [], true, false⟩,
  ⟨112, .printStmt, .builtinCall, none, [], true, false⟩,
  ⟨113, .printStmt, .libraryCall, none, [], true, false⟩,
  ⟨114, .printStmt, .libraryCall, none, [], true, false⟩,
  ⟨115, .printStmt, .libraryCall, none, [], true, false⟩,
  ⟨116, .printStmt, .libraryCall, none, [], true, false⟩,
  ⟨117, .printStmt, .libraryCall, none, [], true, false⟩]

/-- Chunk of the script transcription (see `scriptStmts`). -/
def scriptStmtsB : List Stmt := [
  ⟨120, .assign, .libraryCall, some .creation, [], true, false⟩,
  ⟨121, .assign, .libraryCall, none, [], true, false⟩,
  ⟨122, .printStmt, .builtinCall, none, [], true, false⟩,
  ⟨123, .printStmt, .builtinCall, none, [], true, false⟩,
  ⟨124, .assign, .libraryCall, some .creation, [], true, false⟩,
  ⟨125, .printStmt, .libraryCall, none, [], true, false⟩,
  ⟨126, .printStmt, .libraryCall, none, [], true, false⟩,
  ⟨127, .assign, .libraryCall, some .creation, [], true, false⟩,
  ⟨128, .printStmt, .builtinCall, none, [], true, false⟩,
  ⟨129, .printStmt, .builtinCall, none, [], true, false⟩,
  ⟨130, .printStmt, .libraryCall, none, [], true, false⟩,
  ⟨131, .assign, .libraryCall, some .creation, [], true, false⟩,
  ⟨132, .printStmt, .libraryCall, none, [], true, false⟩,
  ⟨135, .assign, .libraryCall, some .creation, [], true, false⟩,
  ⟨136, .assign, .libraryCall, some .creation, [], true, false⟩,
  ⟨137, .assign, .libraryCall, some .creation, [], true, false⟩,
  ⟨140, .assign, .libraryCall, none, [], true, false⟩,
  ⟨143, .assign, .libraryCall, none, [], true, false⟩,
  ⟨144, .assign, .libraryCall, none, [], true, false⟩,
  ⟨152, .assign, .libraryCall, some .creation, [], true, false⟩,
  ⟨153, .assign, .libraryCall, none, [], true, false⟩,
  ⟨154, .printStmt, .builtinCall, none, [], true, false⟩,
  ⟨156, .assign, .libraryCall, some .creation, [], true, false⟩,
  ⟨157, .assign, .libraryCall, none, [], true, false⟩,
  ⟨158, .printStmt, .builtinCall, none, [], true, false⟩,
  ⟨159, .printStmt, .builtinCall, none, [], true, false⟩,
  ⟨162, .assign, .libraryCall, some .creation, [], true, false⟩,
  ⟨163, .assign, .libraryCall, none, [], true, false⟩,
  ⟨166, .assign, .libraryCall, some .creation, [], true, false⟩,
  ⟨167, .assign, .libraryCall, some .creation, [], true, false⟩,
  ⟨168, .assign, .libraryCall, none, [], true, false⟩,
  ⟨174, .assign, .libraryCall, some .creation, [], true, false⟩,
  ⟨175, .printStmt, .builtinCall, none, [], true, false⟩,
  ⟨176, .printStmt, .libraryCall, some .indexing, [], true, false⟩,
  ⟨177, .printStmt, .libraryCall, some .slicing, [], true, false⟩,
  ⟨178, .assign, .libraryCall, some .slicing, [], true, false⟩,
  ⟨179, .printStmt, .builtinCall, none, [], true, false⟩,
  ⟨182, .assign, .libraryCall, some .creation, [], true, false⟩,
  ⟨183, .printStmt, .libraryCall, some .indexing, [], true, false⟩,
  ⟨184, .printStmt, .libraryCall, some .indexing, [], true, false⟩]

/-- Chunk of the script transcription (see `scriptStmts`). -/
def scriptStmtsC : List Stmt := [
  ⟨185, .printStmt, .libraryCall, some .indexing, [], true, false⟩,
  ⟨188, .assign, .libraryCall, some .creation, [], true, false⟩,
  ⟨189, .printStmt, .builtinCall, none, [], true, false⟩,
  ⟨190, .printStmt, .libraryCall, some .indexing, [], true, false⟩,
  ⟨191, .printStmt, .libraryCall, some .indexing, [], true, false⟩,
  ⟨192, .assign, .libraryCall, none, [], true, false⟩,
  ⟨193, .assign, .libraryCall, some .indexing, [], true, false⟩,
  ⟨194, .printStmt, .builtinCall, none, [], true, false⟩,
  ⟨195, .assign, .libraryCall, some .indexing, [], true, false⟩,
  ⟨196, .printStmt, .builtinCall, none, [], true, false⟩,
  ⟨199, .printStmt, .builtinCall, none, [], true, false⟩,
  ⟨203, .assign, .libraryCall, some .creation, [], true, false⟩,
  ⟨204, .printStmt, .builtinCall, none, [], true, false⟩,
  ⟨205, .assign, .libraryCall, some .slicing, [], true, false⟩,
  ⟨206, .printStmt, .builtinCall, none, [], true, false⟩,
  ⟨207, .assign, .libraryCall, some .slicing, [], true, false⟩,
  ⟨208, .printStmt, .builtinCall, none, [], true, false⟩,
  ⟨209, .printStmt, .builtinCall, none, [], true, false⟩,
  ⟨212, .assign, .libraryCall, some .creation, [], true, false⟩,
  ⟨213, .printStmt, .builtinCall, none, [], true, false⟩,
  ⟨214, .assign, .libraryCall, some .slicing, [], true, false⟩,
  ⟨215, .printStmt, .builtinCall, none, [], true, false⟩,
  ⟨216, .assign, .libraryCall, some .slicing, [], true, false⟩,
  ⟨217, .printStmt, .builtinCall, none, [], true, false⟩,
  ⟨218, .printStmt, .builtinCall, none, [], true, false⟩,
  ⟨224, .assign, .libraryCall, some .creation, [], true, false⟩,
  ⟨227, .funcDef, .noComputation, none, [], true, false⟩,
  ⟨228, .returnStmt, .libraryCall, some .creation, [], false, false⟩,
  ⟨230, .assign, .localLogic, none, [], true, false⟩,
  ⟨231, .augAssign, .libraryCall, some .indexing, [], true, false⟩,
  ⟨232, .printStmt, .builtinCall, none, [], true, false⟩,
  ⟨233, .printStmt, .builtinCall, none, [], true, false⟩,
  ⟨235, .printStmt, .libraryCall, none, [], true, false⟩,
  ⟨236, .printStmt, .libraryCall, some .indexing, [], true, false⟩,
  ⟨237, .printStmt, .libraryCall, some .indexing, [], true, false⟩,
  ⟨238, .printStmt, .libraryCall, some .indexing, [], true, false⟩,
  ⟨241, .printStmt, .libraryCall, some .indexing, [], true, false⟩,
  ⟨242, .printStmt, .libraryCall, some .indexing, [], true, false⟩,
  ⟨243, .assign, .libraryCall, none, [], true, false⟩,
  ⟨244, .printStmt, .builtinCall, none, [], true, false⟩]

/-- Chunk of the script transcription (see `scriptStmts`). -/
def scriptStmtsD : List Stmt := [
  ⟨245, .printStmt, .libraryCall, some .indexing, [], true, false⟩,
  ⟨248, .assign, .libraryCall, some .indexing, [], true, false⟩,
  ⟨249, .printStmt, .builtinCall, none, [], true, false⟩,
  ⟨250, .assign, .libraryCall, some .indexing, [], true, false⟩,
  ⟨251, .printStmt, .builtinCall, none, [], true, false⟩,
  ⟨255, .assign, .libraryCall, some .indexing, [], true, false⟩,
  ⟨256, .printStmt, .builtinCall, none, [], true, false⟩,
  ⟨257, .assign, .libraryCall, some .indexing, [], true, false⟩,
  ⟨258, .printStmt, .builtinCall, none, [], true, false⟩,
  ⟨259, .printStmt, .builtinCall, none, [], true, false⟩,
  ⟨265, .assign, .localLogic, none, [], true, false⟩,
  ⟨266, .printStmt, .builtinCall, none, [], true, false⟩,
  ⟨267, .printStmt, .libraryCall, some .indexing, [], true, false⟩,
  ⟨268, .printStmt, .libraryCall, some .indexing, [], true, false⟩,
  ⟨269, .printStmt, .libraryCall, some .indexing, [], true, false⟩,
  ⟨270, .printStmt, .libraryCall, some .indexing, [], true, false⟩,
  ⟨273, .printStmt, .libraryCall, some .indexing, [], true, false⟩,
  ⟨279, .assign, .libraryCall, some .creation, [], true, false⟩,
  ⟨280, .assign, .libraryCall, some .creation, [], true, false⟩,
  ⟨281, .assign, .libraryCall, some .creation, [], true, false⟩,
  ⟨282, .assign, .localLogic, none, [], true, false⟩,
  ⟨283, .printStmt, .builtinCall, none, [], true, false⟩,
  ⟨284, .assign, .libraryCall, none, [], true, false⟩,
  ⟨285, .printStmt, .builtinCall, none, [], true, false⟩,
  ⟨287, .assign, .libraryCall, some .creation, [], true, false⟩,
  ⟨288, .printStmt, .builtinCall, none, [], true, false⟩,
  ⟨289, .printStmt, .libraryCall, none, [], true, false⟩,
  ⟨290, .printStmt, .libraryCall, none, [], true, false⟩,
  ⟨296, .assign, .localLogic, none, [], true, false⟩,
  ⟨297, .printStmt, .builtinCall, none, [], true, false⟩,
  ⟨298, .printStmt, .libraryCall, none, [], true, false⟩,
  ⟨300, .assign, .libraryCall, some .creation, [], true, false⟩,
  ⟨301, .printStmt, .builtinCall, none, [], true, false⟩,
  ⟨302, .printStmt, .libraryCall, none, [], true, false⟩,
  ⟨303, .printStmt, .libraryCall, none, [], true, false⟩,
  ⟨309, .assign, .libraryCall, some .creation, [], true, false⟩,
  ⟨310, .assign, .libraryCall, some .creation, [], true, false⟩,
  ⟨311, .printStmt, .libraryCall, some .linalg, [], true, false⟩,
  ⟨312, .printStmt, .libraryCall, some .linalg, [], true, false⟩,
  ⟨314, .assign, .libraryCall, some .creation, [], true, false⟩]

/-- Chunk of the script transcription (see `scriptStmts`). -/
def scriptStmtsE : List Stmt := [
  ⟨315, .assign, .libraryCall, some .linalg, [], true, false⟩,
  ⟨316, .assign, .libraryCall, some .linalg, [], true, false⟩,
  ⟨317, .printStmt, .libraryCall, none, [], true, false⟩,
  ⟨318, .printStmt, .libraryCall, none, [], true, false⟩,
  ⟨319, .printStmt, .libraryCall, some .linalg, [], true, false⟩,
  ⟨325, .assign, .libraryCall, some .creation, [], true, false⟩,
  ⟨326, .printStmt, .libraryCall, some .aggregation, [], true, false⟩,
  ⟨327, .printStmt, .libraryCall, some .aggregation, [], true, false⟩,
  ⟨328, .printStmt, .libraryCall, some .aggregation, [], true, false⟩,
  ⟨330, .printStmt, .libraryCall, some .aggregation, [], true, false⟩,
  ⟨331, .printStmt, .libraryCall, some .aggregation, [], true, false⟩,
  ⟨332, .printStmt, .libraryCall, some .aggregation, [], true, false⟩,
  ⟨334, .assign, .libraryCall, some .creation, [], true, false⟩,
  ⟨335, .printStmt, .libraryCall, some .aggregation, [], true, false⟩,
  ⟨336, .printStmt, .libraryCall, some .aggregation, [], true, false⟩,
  ⟨339, .assign, .libraryCall, some .creation, [], true, false⟩,
  ⟨340, .assign, .libraryCall, some .aggregation, [], true, false⟩,
  ⟨342, .assign, .libraryCall, some .creation, [], true, false⟩,
  ⟨343, .exprStmt, .libraryCall, some .aggregation, [], true, false⟩,
  ⟨344, .exprStmt, .libraryCall, some .aggregation, [], true, false⟩,
  ⟨350, .assign, .libraryCall, some .creation, [], true, false⟩,
  ⟨351, .printStmt, .builtinCall, none, [], true, false⟩,
  ⟨352, .exprStmt, .libraryCall, some .sorting, [], true, false⟩,
  ⟨353, .printStmt, .builtinCall, none, [], true, false⟩,
  ⟨355, .assign, .libraryCall, some .creation, [], true, false⟩,
  ⟨356, .printStmt, .builtinCall, none, [], true, false⟩,
  ⟨357, .exprStmt, .libraryCall, some .sorting, [], true, false⟩,
  ⟨358, .printStmt, .builtinCall, none, [], true, false⟩,
  ⟨360, .assign, .libraryCall, some .creation, [], true, false⟩,
  ⟨361, .exprStmt, .libraryCall, some .sorting, [], true, false⟩,
  ⟨362, .assign, .localLogic, some .indexing, [], true, false⟩,
  ⟨363, .printStmt, .builtinCall, none, [], true, false⟩,
  ⟨370, .assign, .libraryCall, some .creation, [], true, false⟩,
  ⟨371, .printStmt, .libraryCall, some .setOps, [], true, false⟩,
  ⟨372, .printStmt, .builtinCall, some .setOps, [], true, false⟩,
  ⟨373, .printStmt, .libraryCall, some .setOps, [], true, false⟩,
  ⟨374, .assign, .libraryCall, some .creation, [], true, false⟩,
  ⟨375, .printStmt, .libraryCall, some .setOps, [], true, false⟩,
  ⟨378, .assign, .libraryCall, some .creation, [], true, false⟩,
  ⟨379, .assign, .libraryCall, some .setOps, [], true, false⟩]

/-- Chunk of the script transcription (see `scriptStmts`). -/
def scriptStmtsF : List Stmt := [
  ⟨386, .assign, .libraryCall, some .creation, [], true, false⟩,
  ⟨387, .exprStmt, .libraryCall, some .diskOps, ["some_array.npy"], true, false⟩,
  ⟨388, .exprStmt, .libraryCall, some .diskOps, [], true, false⟩]

/-- Line-by-line transcription of `science_numpy.py`, assembled from the
chunks above.  Statements inside the bodies of the two locally defined
functions (`heading`, lines 50-51, and `numbers_array`, line 228) carry
`top := false`; everything else is a module-level statement.  No statement
in the file is wrapped in a try/except, so every `handled` field is `false`. -/
def scriptStmts : List Stmt :=
  scriptStmtsA ++ scriptStmtsB ++ scriptStmtsC ++ scriptStmtsD ++ scriptStmtsE ++ scriptStmtsF

/-- The module-level statements of the script, in file order. -/
def topStmts : List Stmt := scriptStmts.filter (fun s => s.top)

/-- The files a run of the script creates on disk: the concatenation of
the `creates` fields of all statements. -/
def scriptFilesCreated : List String :=
  scriptStmts.foldr (fun s acc => s.creates ++ acc) []

/-- Lines of the script whose value is computed by local pure-Python
logic rather than a single library or builtin call: the `heading` body
(50, 51), the calls to the locally defined helpers `heading` and
`numbers_array` (53, 230, 265, 296), the list comprehension (282), and
the quantile-index arithmetic (362). -/
def localLogicLines : List Nat := [50, 51, 53, 230, 265, 282, 296, 362]

/-- A statement kind that makes control flow non-linear. -/
def StmtKind.branches : StmtKind → Bool
  | .conditional => true
  | .loop => true
  | .tryStmt => true
  | .returnStmt => true
  | _ => false

/-- A list of naturals is strictly increasing. -/
def strictlyIncreasing : List Nat → Bool
  | [] => true
  | [_] => true
  | a :: b :: rest => decide (a < b) && strictlyIncreasing (b :: rest)

/-- Execution trace of a straight-line program: the line of each statement
executed, in order.  A `returnStmt` is the only kind that stops execution
early (after itself). -/
def execTrace : List Stmt → List Nat
  | [] => []
  | s :: rest =>
      if s.kind = StmtKind.returnStmt then [s.line]
      else s.line :: execTrace rest

/-- Execution in the presence of exceptions.  `raises` tells which source
lines raise when executed.  A raising statement that is not enclosed in a
handler aborts the run: the result is the trace of the statements completed
before it, paired with `some line` of the raising statement.  A raising
statement that is handled continues (the handler recovers). -/
def runExc (raises : Nat → Bool) : List Stmt → List Nat × Option Nat
  | [] => ([], none)
  | s :: rest =>
      if raises s.line then
        if s.handled then
          let r := runExc raises rest
          (s.line :: r.1, r.2)
        else ([], some s.line)
      else
        let r := runExc raises rest
        (s.line :: r.1, r.2)

/-- Embedding of `np.arange(n)` for a natural `n`: the list `0, ..., n-1`. -/
def np_arange (n : Nat) : List Nat := List.range n

/-- Embedding of `.reshape((nrow, ncol))` on a flat row-major buffer:
row `i` is the `ncol`-element window starting at offset `i * ncol`. -/
def reshape {α : Type} (xs : List α) (nrow ncol : Nat) : List (List α) :=
  (List.range nrow).map (fun i => (xs.drop (i * ncol)).take ncol)

/-- Embedding of the script's helper (lines 227-228):
`np.arange(nrow*ncol).reshape((nrow, ncol))`. -/
def numbers_array (nrow ncol : Nat) : List (List Nat) :=
  reshape (np_arange (nrow * ncol)) nrow ncol

/-- Embedding of the list comprehension at line 282:
`[(x if c else y) for x, y, c in zip(xarr, yarr, cond)]`.  Python's `zip`
truncates to the shortest argument, as nested `List.zip` does. -/
def listcomp_select {α : Type} (xarr yarr : List α) (cond : List Bool) : List α :=
  (xarr.zip (yarr.zip cond)).map (fun p => if p.2.2 then p.1 else p.2.1)

/-- Modelled from the spec: `np.where(cond, xarr, yarr)` (line 284) selects,
element by element, from `xarr` where `cond` holds and from `yarr`
elsewhere.  The library call is not part of the repository source, so this
is the spec-side definition of the refinement claim comparing the list
comprehension with the vectorized call. -/
def np_where {α : Type} : List Bool → List α → List α → List α
  | c :: cs, x :: xs, y :: ys => (if c then x else y) :: np_where cs xs ys
  | _, _, _ => []

/-- Modelled from the spec: a heap of ndarray storage buffers.  The script's
comments (lines 198-202 and 253-254) describe numeric slices as views into
the same buffer and boolean indexing as a copy into fresh storage; this
model of the library's aliasing behavior makes that explicit. -/
structure Heap where
  bufs : List (List Int)
deriving Repr

/-- A view into a heap buffer: buffer index, offset into the buffer, and
number of elements. -/
structure View where
  buf : Nat
  off : Nat
  len : Nat
deriving Repr

/-- The sequence of elements a view denotes. -/
def Heap.read (h : Heap) (v : View) : List Int :=
  ((h.bufs.getD v.buf []).drop v.off).take v.len

/-- Assignment of one element through a view: position `i` of the view is
written into the underlying buffer at offset `v.off + i`. -/
def Heap.writeAt (h : Heap) (v : View) (i : Nat) (x : Int) : Heap :=
  ⟨h.bufs.set v.buf ((h.bufs.getD v.buf []).set (v.off + i) x)⟩

/-- `v[a:b]`: a numeric slice is a new view into the same buffer (the
source array is modified through it, line 207). -/
def View.slice (v : View) (a b : Nat) : View :=
  ⟨v.buf, v.off + a, min b v.len - a⟩

/-- The elements of `xs` selected by a boolean mask. -/
def selectMask (xs : List Int) (mask : List Bool) : List Int :=
  ((xs.zip mask).filter (fun p => p.2)).map (fun p => p.1)

/-- `data[mask]`: boolean indexing copies the selected elements into a
fresh buffer appended to the heap and returns a view of that new buffer
(line 255). -/
def Heap.boolIndex (h : Heap) (v : View) (mask : List Bool) : Heap × View :=
  let contents := selectMask (h.read v) mask
  (⟨h.bufs ++ [contents]⟩, ⟨h.bufs.length, 0, contents.length⟩)

/-- Helper: the statements of a list with no handled statement, split as
`pre ++ s :: post` where everything in `pre` runs normally and `s` raises
unhandled, execute exactly `pre` and then abort at `s`. -/
theorem runExc_append_raise (raises : Nat → Bool) (pre : List Stmt) (s : Stmt)
    (post : List Stmt) (hpre : ∀ t ∈ pre, raises t.line = false)
    (hs : raises s.line = true) (hh : s.handled = false) :
    runExc raises (pre ++ s :: post) = (pre.map (fun t => t.line), some s.line) := by
  induction pre with
  | nil => simp [runExc, hs, hh]
  | cons t rest ih =>
      have ht : raises t.line = false := hpre t (by simp)
      have hrest : ∀ u ∈ rest, raises u.line = false := fun u hu => hpre u (by simp [hu])
      simp [runExc, ht, ih hrest]

/-- C1 (counterexample): the claim that a run leaves the set of files on
disk unchanged is false — the `np.save` call at line 387 creates the file
`some_array.npy`, which persists after the script finishes. -/
theorem persistent_file_cex : scriptFilesCreated ≠ [] := by decide

/-- C1 (amended): a run of the script creates exactly one durable file on
disk, `some_array.npy`, written by the `np.save` call at line 387; no other
statement creates any file. -/
theorem persistent_file_amended : scriptFilesCreated = ["some_array.npy"] := by decide

/-- C2 (counterexample): the claim that every value the script computes is
the result of a single library call is false — the script contains
statements (among them the pure-Python list comprehension at line 282)
whose value is computed by local Python logic. -/
theorem single_library_call_cex :
    ¬ (∀ s ∈ scriptStmts, s.comp ≠ CompKind.localLogic) := by decide

/-- C2 (amended): every value the script computes is the result of a
single call into the numerical library or a Python builtin, except exactly
the local pure-Python computations at the eight `localLogicLines`: the
`heading` body (lines 50-51), the calls to the locally defined helpers
(lines 53, 230, 265, 296), the list comprehension (line 282), and the
quantile-index arithmetic (line 362). -/
theorem single_library_call_amended :
    scriptStmts.all
      (fun s => (s.comp == CompKind.localLogic) == localLogicLines.contains s.line)
      = true := by decide

/-- C3: the script's top-level control flow is linear — no top-level
statement is a conditional, loop, try or return, the execution trace is
exactly the statement list (each statement once), and the statements occur
in strictly increasing file order. -/
theorem linear_control_flow :
    topStmts.all (fun s => !(StmtKind.branches s.kind)) = true ∧
    execTrace topStmts = topStmts.map (fun s => s.line) ∧
    strictlyIncreasing (topStmts.map (fun s => s.line)) = true :=
  ⟨by decide, by decide, by decide⟩

/-- C4: the script adds no failure handling of its own — no statement is a
try/except or enclosed in one, so whenever a statement raises (with all
statements before it running normally), the exception propagates uncaught
and the run terminates having executed exactly the statements before the
raising one. -/
theorem uncaught_exception_aborts :
    (∀ s ∈ topStmts, s.handled = false ∧ s.kind ≠ StmtKind.tryStmt) ∧
    ∀ (raises : Nat → Bool) (pre : List Stmt) (s : Stmt) (post : List Stmt),
      topStmts = pre ++ s :: post →
      (∀ t ∈ pre, raises t.line = false) →
      raises s.line = true →
      runExc raises topStmts = (pre.map (fun t => t.line), some s.line) := by
  constructor
  · decide
  · intro raises pre s post hsplit hpre hs
    have hall : ∀ u ∈ topStmts, u.handled = false := by decide
    have hh : s.handled = false := hall s (by rw [hsplit]; simp)
    rw [hsplit]
    exact runExc_append_raise raises pre s post hpre hs hh

/-- Witness for C4: if the `np.save` call at line 387 raises, the run
executes exactly the 198 top-level statements before it and aborts there. -/
theorem uncaught_exception_aborts_w :
    runExc (fun n => decide (n = 387)) topStmts
      = ((topStmts.take 198).map (fun t => t.line), some 387) :=
  uncaught_exception_aborts.2 (fun n => decide (n = 387)) (topStmts.take 198)
    ⟨387, .exprStmt, .libraryCall, some .diskOps, ["some_array.npy"], true, false⟩
    (topStmts.drop 199) (by decide) (by decide) (by decide)

/-- C5: the script performs at least one operation from each of the listed
usage categories: array creation, indexing, slicing, linear algebra,
aggregation, sorting, set operations, and file I/O. -/
theorem all_categories_demonstrated :
    (∃ s ∈ scriptStmts, s.category = some OpCat.creation) ∧
    (∃ s ∈ scriptStmts, s.category = some OpCat.indexing) ∧
    (∃ s ∈ scriptStmts, s.category = some OpCat.slicing) ∧
    (∃ s ∈ scriptStmts, s.category = some OpCat.linalg) ∧
    (∃ s ∈ scriptStmts, s.category = some OpCat.aggregation) ∧
    (∃ s ∈ scriptStmts, s.category = some OpCat.sorting) ∧
    (∃ s ∈ scriptStmts, s.category = some OpCat.setOps) ∧
    (∃ s ∈ scriptStmts, s.category = some OpCat.diskOps) := by decide

/-- C6: the script contains no concurrency — no statement spawns a thread
or process, and the execution trace is the sequential file-order trace of
the single main thread. -/
theorem no_concurrency :
    scriptStmts.all (fun s => !(s.kind == StmtKind.threadSpawn)) = true ∧
    execTrace topStmts = topStmts.map (fun s => s.line) :=
  ⟨by decide, by decide⟩

/-- C7: `numbers_array nrow ncol` is a 2-D array of shape `(nrow, ncol)`
whose element at row `i`, column `j` equals `i * ncol + j`. -/
theorem numbers_array_spec (nrow ncol : Nat) :
    (numbers_array nrow ncol).length = nrow ∧
    (∀ i, i < nrow → ((numbers_array nrow ncol).getD i []).length = ncol) ∧
    (∀ i j, i < nrow → j < ncol →
      ((numbers_array nrow ncol).getD i []).getD j 0 = i * ncol + j) := by
  have hlen : (numbers_array nrow ncol).length = nrow := by
    simp [numbers_array, reshape, np_arange]
  have hrow : ∀ i, i < nrow → (numbers_array nrow ncol).getD i [] =
      ((List.range (nrow * ncol)).drop (i * ncol)).take ncol := by
    intro i hi
    have hi' : i < (numbers_array nrow ncol).length := by rw [hlen]; exact hi
    rw [List.getD_eq_getElem _ _ hi']
    simp [numbers_array, reshape, np_arange]
  have hmul : ∀ i, i < nrow → i * ncol + ncol ≤ nrow * ncol := by
    intro i hi
    have h1 : (i + 1) * ncol ≤ nrow * ncol := Nat.mul_le_mul_right ncol hi
    rw [Nat.succ_mul] at h1
    exact h1
  have hrowlen : ∀ i, i < nrow →
      ((((List.range (nrow * ncol)).drop (i * ncol)).take ncol)).length = ncol := by
    intro i hi
    have h1 := hmul i hi
    simp [List.length_take, List.length_drop, List.length_range]
    omega
  refine ⟨hlen, fun i hi => by rw [hrow i hi]; exact hrowlen i hi, ?_⟩
  intro i j hi hj
  rw [hrow i hi]
  have hlj : j < ((((List.range (nrow * ncol)).drop (i * ncol)).take ncol)).length := by
    rw [hrowlen i hi]; exact hj
  rw [List.getD_eq_getElem _ _ hlj]
  simp [List.getElem_take, List.getElem_drop, List.getElem_range]

/-- Witness for C7 at the script's own call `numbers_array(7, 4)` (line
230): shape 7 rows, row 2 has 4 columns, and entry (2, 3) is 11. -/
theorem numbers_array_spec_w :
    (numbers_array 7 4).length = 7 ∧
    ((numbers_array 7 4).getD 2 []).length = 4 ∧
    ((numbers_array 7 4).getD 2 []).getD 3 0 = 2 * 4 + 3 :=
  ⟨(numbers_array_spec 7 4).1, (numbers_array_spec 7 4).2.1 2 (by decide),
   (numbers_array_spec 7 4).2.2 2 3 (by decide) (by decide)⟩

/-- Helper: on lists of equal length, the line-282 comprehension equals
`np_where`. -/
theorem listcomp_eq_np_where {α : Type} :
    ∀ (cond : List Bool) (xarr yarr : List α), xarr.length = cond.length →
      yarr.length = cond.length →
      listcomp_select xarr yarr cond = np_where cond xarr yarr := by
  intro cond
  induction cond with
  | nil =>
      intro xarr yarr _ _
      simp [listcomp_select, np_where]
  | cons c cs ih =>
      intro xarr yarr hx hy
      cases xarr with
      | nil => simp at hx
      | cons x xs =>
        cases yarr with
        | nil => simp at hy
        | cons y ys =>
          have hx' : xs.length = cs.length := by simpa using hx
          have hy' : ys.length = cs.length := by simpa using hy
          have hstep : listcomp_select (x :: xs) (y :: ys) (c :: cs)
              = (if c then x else y) :: listcomp_select xs ys cs := by
            simp [listcomp_select]
          rw [hstep]
          show _ = (if c then x else y) :: np_where cs xs ys
          exact congrArg _ (ih xs ys hx' hy')

/-- Helper: element `i` of `np_where` is the conditional selection of the
`i`-th elements of its argument arrays. -/
theorem np_where_getD {α : Type} :
    ∀ (cond : List Bool) (xarr yarr : List α) (i : Nat) (d : α),
      xarr.length = cond.length → yarr.length = cond.length → i < cond.length →
      (np_where cond xarr yarr).getD i d =
        if cond.getD i false = true then xarr.getD i d else yarr.getD i d := by
  intro cond
  induction cond with
  | nil => intro _ _ i _ _ _ hi; exact absurd hi (by simp)
  | cons c cs ih =>
      intro xarr yarr i d hx hy hi
      cases xarr with
      | nil => simp at hx
      | cons x xs =>
        cases yarr with
        | nil => simp at hy
        | cons y ys =>
          have hx' : xs.length = cs.length := by simpa using hx
          have hy' : ys.length = cs.length := by simpa using hy
          cases i with
          | zero => simp [np_where]
          | succ n =>
              have hn : n < cs.length := by simpa using hi
              show (np_where cs xs ys).getD n d = _
              simp only [List.getD_cons_succ]
              exact ih xs ys n d hx' hy' hn

/-- C8: for arrays of a common length `n`, the pure-Python comprehension
`[(x if c else y) for x, y, c in zip(xarr, yarr, cond)]` (line 282) and the
vectorized `np.where(cond, xarr, yarr)` (line 284) produce the same
sequence, whose element `i` is `xarr[i]` when `cond[i]` holds and `yarr[i]`
otherwise. -/
theorem where_refines_listcomp {α : Type} (xarr yarr : List α) (cond : List Bool)
    (n : Nat) (hx : xarr.length = n) (hy : yarr.length = n) (hc : cond.length = n) :
    listcomp_select xarr yarr cond = np_where cond xarr yarr ∧
    ∀ (i : Nat) (d : α), i < n →
      (listcomp_select xarr yarr cond).getD i d =
        if cond.getD i false = true then xarr.getD i d else yarr.getD i d := by
  subst hc
  refine ⟨listcomp_eq_np_where cond xarr yarr hx hy, ?_⟩
  intro i d hi
  rw [listcomp_eq_np_where cond xarr yarr hx hy]
  exact np_where_getD cond xarr yarr i d hx hy hi

/-- Witness for C8 on length-5 inputs shaped like the script's example
(line 279-284, with the float entries scaled to integers). -/
theorem where_refines_listcomp_w :
    listcomp_select [(11 : Int), 12, 13, 14, 15] [21, 22, 23, 24, 25]
        [true, false, true, true, false]
      = np_where [true, false, true, true, false] [(11 : Int), 12, 13, 14, 15]
          [21, 22, 23, 24, 25] ∧
    (listcomp_select [(11 : Int), 12, 13, 14, 15] [21, 22, 23, 24, 25]
        [true, false, true, true, false]).getD 1 0
      = if ([true, false, true, true, false].getD 1 false) = true
        then [(11 : Int), 12, 13, 14, 15].getD 1 0
        else [21, 22, 23, 24, 25].getD 1 0 :=
  ⟨(where_refines_listcomp [(11 : Int), 12, 13, 14, 15] [21, 22, 23, 24, 25]
      [true, false, true, true, false] 5 rfl rfl rfl).1,
   (where_refines_listcomp [(11 : Int), 12, 13, 14, 15] [21, 22, 23, 24, 25]
      [true, false, true, true, false] 5 rfl rfl rfl).2 1 0 (by decide)⟩

/-- Helper: setting a buffer element at or past the drop offset commutes
with dropping. -/
theorem set_drop_comm (l : List Int) (off m : Nat) (y : Int) :
    (l.set (off + m) y).drop off = (l.drop off).set m y := by
  apply List.ext_getElem
  · simp
  · intro i h1 h2
    simp only [List.getElem_drop, List.getElem_set, List.length_set, List.length_drop] at *
    split_ifs with hA hB hB
    · rfl
    · omega
    · omega
    · rfl

/-- Helper: setting an element commutes with taking a prefix (a set past
the prefix is a no-op on both sides). -/
theorem set_take_comm (l : List Int) (n m : Nat) (y : Int) :
    (l.set m y).take n = (l.take n).set m y := by
  apply List.ext_getElem
  · simp
  · intro i h1 h2
    simp only [List.getElem_take, List.getElem_set, List.length_set, List.length_take] at *

/-- Helper: reading back a buffer just overwritten in a heap. -/
theorem getD_set_self (l : List (List Int)) (j : Nat) (w : List Int)
    (hj : j < l.length) :
    (l.set j w).getD j [] = w := by
  have hj' : j < (l.set j w).length := by simpa using hj
  rw [List.getD_eq_getElem _ _ hj']
  exact List.getElem_set_self ..

/-- Helper: overwriting the freshly appended buffer of a heap leaves every
pre-existing buffer unchanged. -/
theorem set_append_getD (l : List (List Int)) (c w : List Int) (j : Nat)
    (hj : j < l.length) :
    ((l ++ [c]).set l.length w).getD j [] = l.getD j [] := by
  have hj1 : j < ((l ++ [c]).set l.length w).length := by
    simp [List.length_set, List.length_append]
    omega
  rw [List.getD_eq_getElem _ _ hj1, List.getD_eq_getElem _ _ hj]
  rw [List.getElem_set_ne (by omega)]
  exact List.getElem_append_left ..

/-- C9: boolean indexing returns a copy while numeric slicing returns a
view: writing any element through the view returned by `boolIndex` leaves
the source array unchanged, whereas writing element `k` through the slice
`v[a:b]` updates element `a + k` of the source array in place. -/
theorem boolIndex_copies_slice_views (h : Heap) (v : View) (mask : List Bool)
    (i : Nat) (x : Int) (a b k : Nat) (y : Int) (hv : v.buf < h.bufs.length) :
    ((h.boolIndex v mask).1.writeAt (h.boolIndex v mask).2 i x).read v = h.read v ∧
    (h.writeAt (v.slice a b) k y).read v = (h.read v).set (a + k) y := by
  constructor
  · simp only [Heap.boolIndex, Heap.writeAt, Heap.read]
    rw [set_append_getD _ _ _ _ hv]
  · simp only [Heap.writeAt, Heap.read, View.slice]
    rw [getD_set_self _ _ _ hv]
    have hpos : v.off + a + k = v.off + (a + k) := by omega
    rw [hpos, set_drop_comm, set_take_comm]

/-- Witness for C9 on the script's own slice demo (lines 203-209): the
heap holds `arange(10)`; boolean indexing then writing does not change it,
while writing `-42` at position 0 of the slice `arr[2:7]` updates element
2 of the source array. -/
theorem boolIndex_copies_slice_views_w :
    (((Heap.mk [[0, 1, 2, 3, 4, 5, 6, 7, 8, 9]]).boolIndex ⟨0, 0, 10⟩
        [false, true, false, false, false, true, true]).1.writeAt
      ((Heap.mk [[0, 1, 2, 3, 4, 5, 6, 7, 8, 9]]).boolIndex ⟨0, 0, 10⟩
        [false, true, false, false, false, true, true]).2 0 10).read ⟨0, 0, 10⟩
      = (Heap.mk [[0, 1, 2, 3, 4, 5, 6, 7, 8, 9]]).read ⟨0, 0, 10⟩ ∧
    ((Heap.mk [[0, 1, 2, 3, 4, 5, 6, 7, 8, 9]]).writeAt
        (View.slice ⟨0, 0, 10⟩ 2 7) 0 (-42)).read ⟨0, 0, 10⟩
      = ((Heap.mk [[0, 1, 2, 3, 4, 5, 6, 7, 8, 9]]).read ⟨0, 0, 10⟩).set (2 + 0) (-42) :=
  boolIndex_copies_slice_views ⟨[[0, 1, 2, 3, 4, 5, 6, 7, 8, 9]]⟩ ⟨0, 0, 10⟩
    [false, true, false, false, false, true, true] 0 10 2 7 0 (-42) (by decide)
